import Mathlib

/-!
Shallow embedding of the hdf5-rust binding layer: the attribute builder
(src/src/hl/attribute.rs), the build script (src/build.rs), and the
reference-counted handle model described by the specification.
-/

set_option autoImplicit false

namespace Hdf5

/-- Native HDF5 identifier type hid_t; negative values signal errors. -/
abbrev Hid := Int

/-- Error values of the binding; the payload is a message. -/
abbrev Err := String

/-- Default property-list identifier H5P_DEFAULT (0 in the native library). -/
def H5P_DEFAULT : Hid := 0

/-- Modelled from the spec: Handle is a lightweight wrapper around a native
library identifier; its declaration is outside the sources present here. -/
structure Handle where
  id : Hid
deriving DecidableEq, Repr

/-- Reference counts the native library keeps per identifier. -/
abbrev RefCounts := Hid → Nat

/-- Modelled from the spec: Handle.try_new wraps an identifier when the native
library reports it valid and fails otherwise, without touching any reference
count; the validity oracle stands for the native registry. -/
def Handle.try_new (valid : Hid → Bool) (id : Hid) : Except Err Handle :=
  if valid id then Except.ok ⟨id⟩ else Except.error "invalid id"

/-- Modelled from the spec: Handle.incref increments the native reference
count of the wrapped identifier by one. -/
def Handle.incref (rc : RefCounts) (h : Handle) : RefCounts :=
  fun i => if i = h.id then rc i + 1 else rc i

/-- Modelled from the spec: dataset creation filters (shuffle, fletcher32,
scale-offset); the Filters type is declared outside the sources present here. -/
structure Filters where
  shuffle : Bool
  fletcher32 : Bool
  scale_offset : Option Nat
deriving DecidableEq, Repr

/-- Modelled from the spec: the default filter configuration has every filter
disabled. -/
def Filters.default : Filters :=
  { shuffle := false, fletcher32 := false, scale_offset := none }

/-- Modelled from the spec: a Group is a handle wrapper for a native group
identifier; only the identifier matters to the code embedded here. -/
structure Group where
  id : Hid

/-- Modelled from the spec: a Dataset is a handle wrapper for a native dataset
identifier; only the identifier matters to the code embedded here. -/
structure Dataset where
  id : Hid

/-- Represents the HDF5 attribute object: a newtype over Handle
(src/src/hl/attribute.rs). -/
structure Attribute where
  handle : Handle
deriving DecidableEq, Repr

/-- Abstract token standing for a hdf5-types TypeDescriptor value. -/
abbrev TypeDescriptor := Nat

/-- Shape passed to attribute creation (the Dimension argument). -/
abbrev Extents := List Nat

/-- A C string produced by to_cstring. -/
abbrev CStr := String

/-- Modelled from the spec: Attribute.from_id wraps a non-negative identifier
returned by the native library into an Attribute handle. -/
def Attribute.from_id (id : Hid) : Except Err Attribute :=
  if 0 ≤ id then Except.ok ⟨⟨id⟩⟩ else Except.error "invalid id"

/-- The attribute builder state (src/src/hl/attribute.rs); the phantom element
type T enters only through the descriptor argument passed to finalize. -/
structure AttributeBuilder where
  packed : Bool
  filters : Filters
  parent : Except Err Handle
  track_times : Bool

/-- AttributeBuilder.new (src/src/hl/attribute.rs): wraps the parent group
identifier, increments its reference count when wrapping succeeds, and
initialises every option; returns the builder with the updated counts. -/
def AttributeBuilder.new (valid : Hid → Bool) (rc : RefCounts) (parent : Group) :
    AttributeBuilder × RefCounts :=
  let handle := Handle.try_new valid parent.id
  let rc2 := match handle with
    | Except.ok h => Handle.incref rc h
    | Except.error _ => rc
  ({ packed := false, filters := Filters.default, parent := handle,
     track_times := false }, rc2)

/-- AttributeBuilder.new_from_dataset (src/src/hl/attribute.rs): same as new
but bound to a parent dataset. -/
def AttributeBuilder.new_from_dataset (valid : Hid → Bool) (rc : RefCounts)
    (parent : Dataset) : AttributeBuilder × RefCounts :=
  let handle := Handle.try_new valid parent.id
  let rc2 := match handle with
    | Except.ok h => Handle.incref rc h
    | Except.error _ => rc
  ({ packed := false, filters := Filters.default, parent := handle,
     track_times := false }, rc2)

/-- Setter packed (src/src/hl/attribute.rs): sets the packed flag and returns
the same builder. -/
def AttributeBuilder.setPacked (b : AttributeBuilder) (v : Bool) : AttributeBuilder :=
  { b with packed := v }

/-- Setter track_times (src/src/hl/attribute.rs): sets the track_times flag
and returns the same builder. -/
def AttributeBuilder.setTrackTimes (b : AttributeBuilder) (v : Bool) : AttributeBuilder :=
  { b with track_times := v }

/-- One H5Acreate2 call with the arguments the binding passed to it. -/
structure AcreateCall where
  loc_id : Hid
  attr_name : CStr
  type_id : Hid
  space_id : Hid
  acpl_id : Hid
  aapl_id : Hid
deriving DecidableEq, Repr

/-- Oracles for the native and marshalling operations finalize relies on;
to_packed_repr and to_c_repr stand for the hdf5-types descriptor conversions,
from_descriptor for Datatype construction returning the datatype identifier,
dataspace_try_new for Dataspace construction, and h5acreate2 for the native
creation call returning the new attribute identifier. -/
structure FfiEnv where
  to_c_repr : TypeDescriptor → TypeDescriptor
  to_packed_repr : TypeDescriptor → TypeDescriptor
  from_descriptor : TypeDescriptor → Except Err Hid
  dataspace_try_new : Extents → Except Err Hid
  to_cstring : String → Except Err CStr
  h5acreate2 : Hid → CStr → Hid → Hid → Hid → Hid → Hid
  nativeError : Int → Err

/-- AttributeBuilder.finalize (src/src/hl/attribute.rs): picks the packed or C
representation of the descriptor according to the packed flag, then in source
order constructs the datatype, clones the parent handle, constructs the
dataspace and the C string, and issues the single H5Acreate2 call with both
property lists H5P_DEFAULT; a negative return is turned into the native error.
The second component records every H5Acreate2 call issued. -/
def AttributeBuilder.finalize (env : FfiEnv) (b : AttributeBuilder)
    (desc : TypeDescriptor) (name : String) (extents : Extents) :
    Except Err Attribute × List AcreateCall :=
  let type_descriptor := if b.packed then env.to_packed_repr desc else env.to_c_repr desc
  match env.from_descriptor type_descriptor with
  | Except.error e => (Except.error e, [])
  | Except.ok dtId =>
    match b.parent with
    | Except.error e => (Except.error e, [])
    | Except.ok parent =>
      match env.dataspace_try_new extents with
      | Except.error e => (Except.error e, [])
      | Except.ok dsId =>
        match env.to_cstring name with
        | Except.error e => (Except.error e, [])
        | Except.ok cname =>
          let ret := env.h5acreate2 parent.id cname dtId dsId H5P_DEFAULT H5P_DEFAULT
          let call : AcreateCall :=
            { loc_id := parent.id, attr_name := cname, type_id := dtId,
              space_id := dsId, acpl_id := H5P_DEFAULT, aapl_id := H5P_DEFAULT }
          if ret < 0 then (Except.error (env.nativeError ret), [call])
          else (Attribute.from_id ret, [call])

/-- AttributeBuilder.create (src/src/hl/attribute.rs): delegates to finalize. -/
def AttributeBuilder.create (env : FfiEnv) (b : AttributeBuilder)
    (desc : TypeDescriptor) (name : String) (shape : Extents) :
    Except Err Attribute × List AcreateCall :=
  b.finalize env desc name shape

/-- Characters of the version key marker DEP_HDF5_VERSION_ from src/build.rs. -/
def versionMarker : List Char := "DEP_HDF5_VERSION_".toList

/-- Fuel-bounded repeated removal of a pattern from the front of a list; each
removal shortens the list by at least one character when the pattern is
non-empty, so fuel equal to the list length always suffices. -/
def trimStartMatchesAux (fuel : Nat) (p s : List Char) : List Char :=
  match fuel with
  | 0 => s
  | Nat.succ f =>
    if p ≠ [] ∧ p.isPrefixOf s then trimStartMatchesAux f p (s.drop p.length)
    else s

/-- Rust str.trim_start_matches specialised to character lists: repeatedly
removes the pattern from the front while it is a prefix (src/build.rs uses it
with the marker DEP_HDF5_VERSION_). -/
def trimStartMatches (p s : List Char) : List Char :=
  trimStartMatchesAux s.length p s

/-- Flags printed by one iteration of the loop in src/build.rs main for the
environment variable named key. -/
def emitFlags (key : String) : List String :=
  (if key = "DEP_HDF5_HAVE_DIRECT" then ["h5_have_direct"] else []) ++
  (if key = "DEP_HDF5_HAVE_STDBOOL" then ["h5_have_stdbool"] else []) ++
  (if key = "DEP_HDF5_HAVE_PARALLEL" then ["h5_have_parallel"] else []) ++
  (if key = "DEP_HDF5_HAVE_THREADSAFE" then ["h5_have_threadsafe"] else []) ++
  (if versionMarker.isPrefixOf key.toList then
    [String.mk ("hdf5_".toList ++ trimStartMatches versionMarker key.toList)]
  else [])

/-- build.rs main: iterate the environment variables and print the flags each
iteration emits, in order. -/
def buildMain (env : List (String × String)) : List String :=
  env.flatMap (fun kv => emitFlags kv.fst)

/-- A version configuration flag is one that starts with hdf5_. -/
def isVersionFlag (f : String) : Bool :=
  "hdf5_".toList.isPrefixOf f.toList

/-- Modelled from the spec: one wrapper operation on a native resource, either
cloning one of its live wrappers or dropping one; the Clone and Drop
implementations of the handle wrappers are outside the sources present here. -/
inductive WrapperOp where
  | clone
  | drop
deriving DecidableEq, Repr

/-- Modelled from the spec: the native-side state of one resource, with its
reference count, the number of live wrappers referencing it, and whether the
underlying resource has been released. -/
structure ResourceState where
  refcount : Nat
  live : Nat
  released : Bool
deriving DecidableEq, Repr

/-- Modelled from the spec: a clone increments the reference count together
with the wrapper count; a drop decrements both and releases the resource when
the count reaches zero. -/
def stepOp (s : ResourceState) : WrapperOp → ResourceState
  | WrapperOp.clone => { s with refcount := s.refcount + 1, live := s.live + 1 }
  | WrapperOp.drop =>
      { refcount := s.refcount - 1, live := s.live - 1,
        released := s.released || decide (s.refcount - 1 = 0) }

/-- Run a sequence of wrapper operations from a state. -/
def runOps (s : ResourceState) (ops : List WrapperOp) : ResourceState :=
  ops.foldl stepOp s

/-- A sequence of wrapper operations is valid when every operation acts while
at least one wrapper is still live. -/
def validOps (s : ResourceState) : List WrapperOp → Bool
  | [] => true
  | op :: rest => decide (0 < s.live) && validOps (stepOp s op) rest

/-- The state right after the first wrapper of a resource is created. -/
def initialState : ResourceState :=
  { refcount := 1, live := 1, released := false }

/-- A concrete oracle environment used to exercise the embedding. -/
def env0 : FfiEnv :=
  { to_c_repr := fun d => d + 1, to_packed_repr := fun d => d + 2,
    from_descriptor := fun d => Except.ok (Int.ofNat d),
    dataspace_try_new := fun x => Except.ok (Int.ofNat x.length),
    to_cstring := fun s => Except.ok s,
    h5acreate2 := fun _ _ _ _ _ _ => 7,
    nativeError := fun _ => "native" }

/-- A builder bound to a valid parent handle with every option at its default. -/
def builder0 : AttributeBuilder :=
  { packed := false, filters := Filters.default, parent := Except.ok ⟨3⟩,
    track_times := false }

/-- Same parent as builder0 but with time tracking on and non-default filters. -/
def builder1 : AttributeBuilder :=
  { packed := false,
    filters := { shuffle := true, fletcher32 := true, scale_offset := some 4 },
    parent := Except.ok ⟨3⟩, track_times := true }

/-- A builder whose parent handle acquisition failed. -/
def builderErr : AttributeBuilder :=
  { packed := false, filters := Filters.default, parent := Except.error "no parent",
    track_times := false }

/-- A validity oracle accepting only identifier 3. -/
def valid0 : Hid → Bool := fun i => i == 3

/-- A reference-count table assigning 5 to every identifier. -/
def rc0 : RefCounts := fun _ => 5

/-- The H5Acreate2 call builder0 issues under env0 for descriptor 5, name a,
and extents with two dimensions. -/
def callExample : AcreateCall :=
  { loc_id := 3, attr_name := "a", type_id := 6, space_id := 2,
    acpl_id := 0, aapl_id := 0 }

theorem finalize_success (env : FfiEnv) (b : AttributeBuilder)
    (desc : TypeDescriptor) (name : String) (ext : Extents)
    (parent : Handle) (dtId dsId : Hid) (cname : CStr)
    (hp : b.parent = Except.ok parent)
    (hd : env.from_descriptor
      (if b.packed then env.to_packed_repr desc else env.to_c_repr desc) =
        Except.ok dtId)
    (hs : env.dataspace_try_new ext = Except.ok dsId)
    (hc : env.to_cstring name = Except.ok cname) :
    b.finalize env desc name ext =
      ((if env.h5acreate2 parent.id cname dtId dsId H5P_DEFAULT H5P_DEFAULT < 0 then
          Except.error
            (env.nativeError (env.h5acreate2 parent.id cname dtId dsId H5P_DEFAULT H5P_DEFAULT))
        else Attribute.from_id (env.h5acreate2 parent.id cname dtId dsId H5P_DEFAULT H5P_DEFAULT)),
       [{ loc_id := parent.id, attr_name := cname, type_id := dtId,
          space_id := dsId, acpl_id := H5P_DEFAULT, aapl_id := H5P_DEFAULT }]) := by
  simp only [AttributeBuilder.finalize]
  rw [hd, hp, hs, hc]
  by_cases hret : env.h5acreate2 parent.id cname dtId dsId H5P_DEFAULT H5P_DEFAULT < 0 <;>
    simp [hret]

theorem finalize_calls_default_plists (env : FfiEnv) (b : AttributeBuilder)
    (desc : TypeDescriptor) (name : String) (ext : Extents) :
    ∀ c, c ∈ (b.finalize env desc name ext).snd →
      c.acpl_id = H5P_DEFAULT ∧ c.aapl_id = H5P_DEFAULT := by
  intro c hc
  simp only [AttributeBuilder.finalize] at hc
  cases h1 : env.from_descriptor
      (if b.packed then env.to_packed_repr desc else env.to_c_repr desc) with
  | error e => simp [h1] at hc
  | ok dtId =>
    cases h2 : b.parent with
    | error e => simp [h1, h2] at hc
    | ok parent =>
      cases h3 : env.dataspace_try_new ext with
      | error e => simp [h1, h2, h3] at hc
      | ok dsId =>
        cases h4 : env.to_cstring name with
        | error e => simp [h1, h2, h3, h4] at hc
        | ok cname =>
          by_cases h5 : env.h5acreate2 parent.id cname dtId dsId H5P_DEFAULT H5P_DEFAULT < 0 <;>
            simp [h1, h2, h3, h4, h5] at hc <;> subst hc <;> exact ⟨rfl, rfl⟩

theorem runOps_inv (ops : List WrapperOp) :
    ∀ s : ResourceState, s.refcount = s.live →
      s.released = decide (s.live = 0) → validOps s ops = true →
      (runOps s ops).refcount = (runOps s ops).live ∧
        (runOps s ops).released = decide ((runOps s ops).live = 0) := by
  induction ops with
  | nil => intro s h1 h2 _; exact ⟨h1, h2⟩
  | cons op rest ih =>
    intro s h1 h2 hv
    simp only [validOps, Bool.and_eq_true, decide_eq_true_eq] at hv
    have hlive : s.live ≠ 0 := by omega
    have hstep1 : (stepOp s op).refcount = (stepOp s op).live := by
      cases op <;> simp [stepOp] <;> omega
    have hstep2 : (stepOp s op).released = decide ((stepOp s op).live = 0) := by
      cases op <;> simp [stepOp, h1, h2, hlive]
    have hrun : runOps s (op :: rest) = runOps (stepOp s op) rest := rfl
    rw [hrun]
    exact ih (stepOp s op) hstep1 hstep2 hv.2

/-- Second character of a string, used to tell the emitted flag families apart. -/
def secondChar (s : String) : Option Char :=
  (s.data.drop 1).head?

theorem verFlag_ne (cs : List Char) (s : String) (hs : secondChar s = some '5') :
    String.mk ('h' :: 'd' :: 'f' :: '5' :: '_' :: cs) ≠ s := by
  intro h
  have h3 := congrArg secondChar h
  rw [hs] at h3
  have h4 : (some 'd' : Option Char) = some '5' := h3
  exact absurd h4 (by decide)

theorem hdf5_toList_append (cs : List Char) :
    "hdf5_".toList ++ cs = 'h' :: 'd' :: 'f' :: '5' :: '_' :: cs := rfl

theorem direct_ne_version (cs : List Char) :
    ("h5_have_direct" = String.mk ('h' :: 'd' :: 'f' :: '5' :: '_' :: cs)) ↔ False :=
  ⟨fun h => verFlag_ne cs "h5_have_direct" rfl h.symm, False.elim⟩

theorem stdbool_ne_version (cs : List Char) :
    ("h5_have_stdbool" = String.mk ('h' :: 'd' :: 'f' :: '5' :: '_' :: cs)) ↔ False :=
  ⟨fun h => verFlag_ne cs "h5_have_stdbool" rfl h.symm, False.elim⟩

theorem parallel_ne_version (cs : List Char) :
    ("h5_have_parallel" = String.mk ('h' :: 'd' :: 'f' :: '5' :: '_' :: cs)) ↔ False :=
  ⟨fun h => verFlag_ne cs "h5_have_parallel" rfl h.symm, False.elim⟩

theorem threadsafe_ne_version (cs : List Char) :
    ("h5_have_threadsafe" = String.mk ('h' :: 'd' :: 'f' :: '5' :: '_' :: cs)) ↔ False :=
  ⟨fun h => verFlag_ne cs "h5_have_threadsafe" rfl h.symm, False.elim⟩

theorem mem_emitFlags_direct (k : String) :
    "h5_have_direct" ∈ emitFlags k ↔ k = "DEP_HDF5_HAVE_DIRECT" := by
  simp [emitFlags, hdf5_toList_append, direct_ne_version]

theorem mem_emitFlags_stdbool (k : String) :
    "h5_have_stdbool" ∈ emitFlags k ↔ k = "DEP_HDF5_HAVE_STDBOOL" := by
  simp [emitFlags, hdf5_toList_append, stdbool_ne_version]

theorem mem_emitFlags_parallel (k : String) :
    "h5_have_parallel" ∈ emitFlags k ↔ k = "DEP_HDF5_HAVE_PARALLEL" := by
  simp [emitFlags, hdf5_toList_append, parallel_ne_version]

theorem mem_emitFlags_threadsafe (k : String) :
    "h5_have_threadsafe" ∈ emitFlags k ↔ k = "DEP_HDF5_HAVE_THREADSAFE" := by
  simp [emitFlags, hdf5_toList_append, threadsafe_ne_version]

theorem mem_buildMain_of_key (flag key : String)
    (hiff : ∀ k, flag ∈ emitFlags k ↔ k = key) (env : List (String × String)) :
    flag ∈ buildMain env ↔ ∃ v, (key, v) ∈ env := by
  simp only [buildMain, List.mem_flatMap]
  constructor
  · rintro ⟨⟨k, v⟩, hmem, hf⟩
    rw [hiff] at hf
    subst hf
    exact ⟨v, hmem⟩
  · rintro ⟨v, hv⟩
    exact ⟨(key, v), hv, (hiff key).mpr rfl⟩

theorem isPrefixOf_append_self (l cs : List Char) :
    l.isPrefixOf (l ++ cs) = true := by
  induction l with
  | nil => simp [List.isPrefixOf]
  | cons a as ih => simp [List.isPrefixOf, ih]

theorem isVersionFlag_mk (cs : List Char) :
    isVersionFlag (String.mk ('h' :: 'd' :: 'f' :: '5' :: '_' :: cs)) = true := by
  show "hdf5_".toList.isPrefixOf ('h' :: 'd' :: 'f' :: '5' :: '_' :: cs) = true
  exact isPrefixOf_append_self "hdf5_".toList cs

/-- C1: once the parent handle and every marshalling step succeed, create
issues exactly one native H5Acreate2 call, and the datatype argument of that
call is the datatype built from the packed representation (to_packed_repr) of
the element descriptor when the packed option was last set to true, and from
the C representation (to_c_repr) otherwise. -/
theorem create_single_native_call (env : FfiEnv) (b : AttributeBuilder)
    (desc : TypeDescriptor) (name : String) (ext : Extents)
    (parent : Handle) (dtId dsId : Hid) (cname : CStr)
    (hp : b.parent = Except.ok parent)
    (hd : env.from_descriptor
      (if b.packed then env.to_packed_repr desc else env.to_c_repr desc) =
        Except.ok dtId)
    (hs : env.dataspace_try_new ext = Except.ok dsId)
    (hc : env.to_cstring name = Except.ok cname) :
    (b.create env desc name ext).snd =
      [{ loc_id := parent.id, attr_name := cname, type_id := dtId,
         space_id := dsId, acpl_id := H5P_DEFAULT, aapl_id := H5P_DEFAULT }] := by
  show (b.finalize env desc name ext).snd = _
  rw [finalize_success env b desc name ext parent dtId dsId cname hp hd hs hc]

/-- Witness for create_single_native_call at the concrete environment env0. -/
theorem create_single_native_call_witness :
    builder0.parent = Except.ok ⟨3⟩ ∧
    env0.from_descriptor
      (if builder0.packed then env0.to_packed_repr 5 else env0.to_c_repr 5) =
        Except.ok 6 ∧
    env0.dataspace_try_new [2, 3] = Except.ok 2 ∧
    env0.to_cstring "a" = Except.ok "a" ∧
    (builder0.create env0 5 "a" [2, 3]).snd =
      [{ loc_id := 3, attr_name := "a", type_id := 6, space_id := 2,
         acpl_id := H5P_DEFAULT, aapl_id := H5P_DEFAULT }] :=
  ⟨rfl, rfl, rfl, rfl,
    create_single_native_call env0 builder0 5 "a" [2, 3] ⟨3⟩ 6 2 "a" rfl rfl rfl rfl⟩

/-- C2 counterexample: two builders with the same parent and packed flag but
different filters and track_times values make create produce identical results
and identical H5Acreate2 arguments under env0, so the native call's arguments
do not depend on the filters and track_times fields. -/
theorem track_times_filters_ignored :
    builder1.track_times ≠ builder0.track_times ∧
    builder1.filters ≠ builder0.filters ∧
    builder1.parent = builder0.parent ∧
    builder1.packed = builder0.packed ∧
    builder1.create env0 5 "a" [2, 3] = builder0.create env0 5 "a" [2, 3] :=
  ⟨by decide, by decide, rfl, rfl, rfl⟩

/-- C2 amended: the filters and track_times options are accumulated in the
builder but are not forwarded into the native creation call: create is
unchanged by them, and every H5Acreate2 call it issues passes H5P_DEFAULT for
both property-list arguments. -/
theorem options_not_forwarded (env : FfiEnv) (b : AttributeBuilder) (f : Filters)
    (t : Bool) (desc : TypeDescriptor) (name : String) (ext : Extents) :
    AttributeBuilder.create env { b with filters := f, track_times := t } desc name ext =
      b.create env desc name ext ∧
    ∀ c, c ∈ (b.create env desc name ext).snd →
      c.acpl_id = H5P_DEFAULT ∧ c.aapl_id = H5P_DEFAULT :=
  ⟨rfl, finalize_calls_default_plists env b desc name ext⟩

/-- Witness for options_not_forwarded at the call builder0 issues under env0. -/
theorem options_not_forwarded_witness :
    callExample ∈ (builder0.create env0 5 "a" [2, 3]).snd ∧
    (callExample.acpl_id = H5P_DEFAULT ∧ callExample.aapl_id = H5P_DEFAULT) :=
  ⟨by decide,
    (options_not_forwarded env0 builder0 Filters.default true 5 "a" [2, 3]).2
      callExample (by decide)⟩

/-- C3: new and new_from_dataset increment the parent identifier's native
reference count by exactly one when handle acquisition succeeds, and leave
every reference count unchanged when it fails. -/
theorem builder_new_increfs_once (valid : Hid → Bool) (rc : RefCounts) (p : Hid) :
    (valid p = true →
      (AttributeBuilder.new valid rc ⟨p⟩).snd p = rc p + 1 ∧
      (∀ q, q ≠ p → (AttributeBuilder.new valid rc ⟨p⟩).snd q = rc q) ∧
      (AttributeBuilder.new_from_dataset valid rc ⟨p⟩).snd p = rc p + 1 ∧
      (∀ q, q ≠ p → (AttributeBuilder.new_from_dataset valid rc ⟨p⟩).snd q = rc q)) ∧
    (valid p = false →
      (AttributeBuilder.new valid rc ⟨p⟩).snd = rc ∧
      (AttributeBuilder.new_from_dataset valid rc ⟨p⟩).snd = rc) := by
  constructor
  · intro hv
    refine ⟨?_, ?_, ?_, ?_⟩
    · simp [AttributeBuilder.new, Handle.try_new, Handle.incref, hv]
    · intro q hq
      simp [AttributeBuilder.new, Handle.try_new, Handle.incref, hv, hq]
    · simp [AttributeBuilder.new_from_dataset, Handle.try_new, Handle.incref, hv]
    · intro q hq
      simp [AttributeBuilder.new_from_dataset, Handle.try_new, Handle.incref, hv, hq]
  · intro hv
    constructor
    · simp [AttributeBuilder.new, Handle.try_new, hv]
    · simp [AttributeBuilder.new_from_dataset, Handle.try_new, hv]

/-- Witness for builder_new_increfs_once at a concrete validity oracle. -/
theorem builder_new_increfs_once_witness :
    valid0 3 = true ∧ (AttributeBuilder.new valid0 rc0 ⟨3⟩).snd 3 = rc0 3 + 1 :=
  ⟨rfl, ((builder_new_increfs_once valid0 rc0 3).1 rfl).1⟩

/-- C4: starting from the creation of one wrapper, after any valid sequence of
wrapper clones and drops the reference count tracked through Handle equals the
number of live wrappers, and the underlying resource is released exactly when
no live wrapper is left. -/
theorem refcount_eq_live_wrappers (ops : List WrapperOp)
    (h : validOps initialState ops = true) :
    (runOps initialState ops).refcount = (runOps initialState ops).live ∧
    ((runOps initialState ops).released = true ↔
      (runOps initialState ops).live = 0) := by
  obtain ⟨ha, hb⟩ := runOps_inv ops initialState rfl rfl h
  refine ⟨ha, ?_⟩
  rw [hb]
  simp

/-- Witness for refcount_eq_live_wrappers on a clone followed by two drops. -/
theorem refcount_eq_live_wrappers_witness :
    validOps initialState [WrapperOp.clone, WrapperOp.drop, WrapperOp.drop] = true ∧
    (runOps initialState [WrapperOp.clone, WrapperOp.drop, WrapperOp.drop]).refcount =
      (runOps initialState [WrapperOp.clone, WrapperOp.drop, WrapperOp.drop]).live :=
  ⟨by decide,
    (refcount_eq_live_wrappers [WrapperOp.clone, WrapperOp.drop, WrapperOp.drop]
      (by decide)).1⟩

/-- C5: create returns an error and issues no H5Acreate2 call when the stored
parent handle is an error; with a stored parent it fails exactly when datatype
construction, dataspace construction, or C-string conversion fails, in which
case that error is returned without a native call, or when the H5Acreate2 call
returns a negative identifier, in which case the native error is returned;
when the call returns a non-negative identifier create succeeds with it. -/
theorem create_error_conditions (env : FfiEnv) (b : AttributeBuilder)
    (desc : TypeDescriptor) (name : String) (ext : Extents) :
    (∀ e, b.parent = Except.error e →
      (b.create env desc name ext).snd = [] ∧
      ∃ e2, (b.create env desc name ext).fst = Except.error e2) ∧
    (∀ parent, b.parent = Except.ok parent →
      (∀ e, env.from_descriptor
          (if b.packed then env.to_packed_repr desc else env.to_c_repr desc) =
            Except.error e →
        b.create env desc name ext = (Except.error e, [])) ∧
      (∀ dtId, env.from_descriptor
          (if b.packed then env.to_packed_repr desc else env.to_c_repr desc) =
            Except.ok dtId →
        (∀ e, env.dataspace_try_new ext = Except.error e →
          b.create env desc name ext = (Except.error e, [])) ∧
        (∀ dsId, env.dataspace_try_new ext = Except.ok dsId →
          (∀ e, env.to_cstring name = Except.error e →
            b.create env desc name ext = (Except.error e, [])) ∧
          (∀ cname, env.to_cstring name = Except.ok cname →
            (env.h5acreate2 parent.id cname dtId dsId H5P_DEFAULT H5P_DEFAULT < 0 →
              (b.create env desc name ext).fst =
                Except.error (env.nativeError
                  (env.h5acreate2 parent.id cname dtId dsId H5P_DEFAULT H5P_DEFAULT))) ∧
            (0 ≤ env.h5acreate2 parent.id cname dtId dsId H5P_DEFAULT H5P_DEFAULT →
              (b.create env desc name ext).fst =
                Except.ok ⟨⟨env.h5acreate2 parent.id cname dtId dsId
                  H5P_DEFAULT H5P_DEFAULT⟩⟩))))) := by
  constructor
  · intro e he
    cases hfd : env.from_descriptor
        (if b.packed then env.to_packed_repr desc else env.to_c_repr desc) with
    | error e3 =>
      refine ⟨?_, e3, ?_⟩ <;>
        simp [AttributeBuilder.create, AttributeBuilder.finalize, hfd]
    | ok dt =>
      refine ⟨?_, e, ?_⟩ <;>
        simp [AttributeBuilder.create, AttributeBuilder.finalize, hfd, he]
  · intro parent hp
    refine ⟨?_, ?_⟩
    · intro e hfd
      simp [AttributeBuilder.create, AttributeBuilder.finalize, hfd]
    · intro dtId hfd
      refine ⟨?_, ?_⟩
      · intro e hds
        simp [AttributeBuilder.create, AttributeBuilder.finalize, hfd, hp, hds]
      · intro dsId hds
        refine ⟨?_, ?_⟩
        · intro e hcs
          simp [AttributeBuilder.create, AttributeBuilder.finalize, hfd, hp, hds, hcs]
        · intro cname hcs
          have hfin := finalize_success env b desc name ext parent dtId dsId cname
            hp hfd hds hcs
          constructor
          · intro hlt
            show (b.finalize env desc name ext).fst = _
            rw [hfin]
            simp [hlt]
          · intro hge
            have hnl : ¬ env.h5acreate2 parent.id cname dtId dsId
                H5P_DEFAULT H5P_DEFAULT < 0 := not_lt.mpr hge
            show (b.finalize env desc name ext).fst = _
            rw [hfin]
            simp [hnl, Attribute.from_id, hge]

/-- Witness for create_error_conditions on a builder with a failed parent. -/
theorem create_error_conditions_witness :
    builderErr.parent = Except.error "no parent" ∧
    (builderErr.create env0 5 "a" [2, 3]).snd = [] :=
  ⟨rfl,
    ((create_error_conditions env0 builderErr 5 "a" [2, 3]).1 "no parent" rfl).1⟩

theorem isVersionFlag_direct : isVersionFlag "h5_have_direct" = false := by decide

theorem isVersionFlag_stdbool : isVersionFlag "h5_have_stdbool" = false := by decide

theorem isVersionFlag_parallel : isVersionFlag "h5_have_parallel" = false := by decide

theorem isVersionFlag_threadsafe : isVersionFlag "h5_have_threadsafe" = false := by decide

/-- C6: the build script emits each of the flags h5_have_direct,
h5_have_stdbool, h5_have_parallel, and h5_have_threadsafe exactly when the
environment contains a variable with the corresponding DEP_HDF5_HAVE name,
regardless of the variable's value. -/
theorem have_flags_iff_env (env : List (String × String)) :
    ("h5_have_direct" ∈ buildMain env ↔ ∃ v, ("DEP_HDF5_HAVE_DIRECT", v) ∈ env) ∧
    ("h5_have_stdbool" ∈ buildMain env ↔ ∃ v, ("DEP_HDF5_HAVE_STDBOOL", v) ∈ env) ∧
    ("h5_have_parallel" ∈ buildMain env ↔ ∃ v, ("DEP_HDF5_HAVE_PARALLEL", v) ∈ env) ∧
    ("h5_have_threadsafe" ∈ buildMain env ↔ ∃ v, ("DEP_HDF5_HAVE_THREADSAFE", v) ∈ env) :=
  ⟨mem_buildMain_of_key _ _ mem_emitFlags_direct env,
   mem_buildMain_of_key _ _ mem_emitFlags_stdbool env,
   mem_buildMain_of_key _ _ mem_emitFlags_parallel env,
   mem_buildMain_of_key _ _ mem_emitFlags_threadsafe env⟩

/-- C7: one loop iteration of the build script emits exactly one version flag
when the variable name starts with DEP_HDF5_VERSION_, namely hdf5_ followed by
the name with every leading occurrence of that marker removed, and emits no
version flag for a variable name that does not start with the marker. -/
theorem version_flag_per_key (k : String) :
    (versionMarker.isPrefixOf k.toList = true →
      (emitFlags k).filter (fun s => isVersionFlag s) =
        [String.mk ('h' :: 'd' :: 'f' :: '5' :: '_' ::
          trimStartMatches versionMarker k.toList)]) ∧
    (versionMarker.isPrefixOf k.toList = false →
      (emitFlags k).filter (fun s => isVersionFlag s) = []) := by
  constructor
  · intro hk
    simp at hk
    simp [emitFlags, hk, List.filter_append,
      apply_ite (List.filter (fun s => isVersionFlag s)), hdf5_toList_append,
      isVersionFlag_mk, isVersionFlag_direct, isVersionFlag_stdbool,
      isVersionFlag_parallel, isVersionFlag_threadsafe]
  · intro hk
    simp at hk
    simp [emitFlags, hk, List.filter_append,
      apply_ite (List.filter (fun s => isVersionFlag s)),
      isVersionFlag_direct, isVersionFlag_stdbool,
      isVersionFlag_parallel, isVersionFlag_threadsafe]

/-- Witness for version_flag_per_key at a concrete version variable name. -/
theorem version_flag_per_key_witness :
    versionMarker.isPrefixOf "DEP_HDF5_VERSION_1_14_0".toList = true ∧
    (emitFlags "DEP_HDF5_VERSION_1_14_0").filter (fun s => isVersionFlag s) =
      [String.mk ('h' :: 'd' :: 'f' :: '5' :: '_' ::
        trimStartMatches versionMarker "DEP_HDF5_VERSION_1_14_0".toList)] :=
  ⟨by decide, (version_flag_per_key "DEP_HDF5_VERSION_1_14_0").1 (by decide)⟩

/-- C8: each setter updates exactly its own field: the parent handle, the
filters, and the respective other option are unchanged, the target field takes
the given value, and the result is the same builder with only that field
updated. -/
theorem setters_only_touch_their_field (b : AttributeBuilder) (v : Bool) :
    (b.setPacked v).packed = v ∧
    (b.setPacked v).parent = b.parent ∧
    (b.setPacked v).filters = b.filters ∧
    (b.setPacked v).track_times = b.track_times ∧
    (b.setTrackTimes v).track_times = v ∧
    (b.setTrackTimes v).parent = b.parent ∧
    (b.setTrackTimes v).filters = b.filters ∧
    (b.setTrackTimes v).packed = b.packed :=
  ⟨rfl, rfl, rfl, rfl, rfl, rfl, rfl, rfl⟩

/-- C9: a freshly constructed builder, from new or new_from_dataset, has
packing disabled, default filters, and time tracking disabled, and an
immediate create passes the datatype built from the C representation of the
element descriptor to the native creation call. -/
theorem fresh_builder_defaults (valid : Hid → Bool) (rc : RefCounts)
    (g : Group) (d : Dataset) (env : FfiEnv) (desc : TypeDescriptor)
    (name : String) (ext : Extents) (parent : Handle) (dtId dsId : Hid)
    (cname : CStr)
    (hp : (AttributeBuilder.new valid rc g).fst.parent = Except.ok parent)
    (hd : env.from_descriptor (env.to_c_repr desc) = Except.ok dtId)
    (hs : env.dataspace_try_new ext = Except.ok dsId)
    (hc : env.to_cstring name = Except.ok cname) :
    ((AttributeBuilder.new valid rc g).fst.packed = false ∧
     (AttributeBuilder.new valid rc g).fst.filters = Filters.default ∧
     (AttributeBuilder.new valid rc g).fst.track_times = false) ∧
    ((AttributeBuilder.new_from_dataset valid rc d).fst.packed = false ∧
     (AttributeBuilder.new_from_dataset valid rc d).fst.filters = Filters.default ∧
     (AttributeBuilder.new_from_dataset valid rc d).fst.track_times = false) ∧
    ((AttributeBuilder.new valid rc g).fst.create env desc name ext).snd =
      [{ loc_id := parent.id, attr_name := cname, type_id := dtId,
         space_id := dsId, acpl_id := H5P_DEFAULT, aapl_id := H5P_DEFAULT }] := by
  refine ⟨⟨rfl, rfl, rfl⟩, ⟨rfl, rfl, rfl⟩, ?_⟩
  show (AttributeBuilder.finalize env (AttributeBuilder.new valid rc g).fst
    desc name ext).snd = _
  rw [finalize_success env (AttributeBuilder.new valid rc g).fst desc name ext
    parent dtId dsId cname hp hd hs hc]

/-- Witness for fresh_builder_defaults at the concrete oracle env0. -/
theorem fresh_builder_defaults_witness :
    (AttributeBuilder.new valid0 rc0 ⟨3⟩).fst.parent = Except.ok ⟨3⟩ ∧
    env0.from_descriptor (env0.to_c_repr 5) = Except.ok 6 ∧
    env0.dataspace_try_new [2, 3] = Except.ok 2 ∧
    env0.to_cstring "a" = Except.ok "a" ∧
    ((AttributeBuilder.new valid0 rc0 ⟨3⟩).fst.create env0 5 "a" [2, 3]).snd =
      [{ loc_id := 3, attr_name := "a", type_id := 6, space_id := 2,
         acpl_id := H5P_DEFAULT, aapl_id := H5P_DEFAULT }] :=
  ⟨rfl, rfl, rfl, rfl,
    (fresh_builder_defaults valid0 rc0 ⟨3⟩ ⟨3⟩ env0 5 "a" [2, 3] ⟨3⟩ 6 2 "a"
      rfl rfl rfl rfl).2.2⟩

end Hdf5
